import Mathlib

/-!
Shallow embedding of `master/buildbot/status/web/files/script/project/popup.js`
(a jQuery popup module for a build-monitoring dashboard) and proofs about its
four popup flows and the force-build form validator.

The DOM is embedded explicitly: a form is a list of input records plus banner
and message state; documents are node lists; the asynchronous flows are
functions of an optional response (`none` models a request that fails or never
resolves, since the source installs no failure callback); flows whose claims
concern ordering of side effects are embedded as event traces.
-/

/-- Check whether the pattern (first list) is a prefix of the second list;
used to embed the JavaScript `String.prototype.indexOf` containment test. -/
def charsPre : List Char → List Char → Bool
  | [], _ => true
  | _ :: _, [] => false
  | p :: ps, c :: cs => p == c && charsPre ps cs

/-- Check whether the pattern (first list) occurs as a contiguous run in the
second list. -/
def charsOccur : List Char → List Char → Bool
  | pat, [] => charsPre pat []
  | pat, c :: cs => charsPre pat (c :: cs) || charsOccur pat cs

/-- Embedding of the JavaScript test `s.indexOf(pat) >= 0`: the pattern occurs
as a substring of `s`. -/
def strContains (s pat : String) : Bool :=
  charsOccur pat.toList s.toList

/-- Input control kinds distinguished by the validator's exclusion selector
`:button, :hidden, :checkbox, :submit` (popup.js line 54); `text` stands for
any input the selector does not exclude. -/
inductive InputKind where
  | button
  | hidden
  | checkbox
  | submit
  | text
  deriving DecidableEq, Repr

/-- One form input: its kind, `name` and `value` attributes, and whether it
currently carries the `not-valid` CSS class. -/
structure Input where
  kind : InputKind
  name : String
  value : String
  notValid : Bool
  deriving DecidableEq, Repr

/-- The force-build form subtree handed to `validateForm`: its input controls,
whether the inline `.form-message` node is visible, and how many `.error-input`
banner nodes are present in the form. -/
structure Form where
  inputs : List Input
  formMessageVisible : Bool
  errorBannerCount : Nat
  deriving DecidableEq, Repr

/-- Inputs matched by the exclusion selector `:button, :hidden, :checkbox,
:submit` (popup.js line 54). -/
def excludedInput (i : Input) : Bool :=
  match i.kind with
  | .button => true
  | .hidden => true
  | .checkbox => true
  | .submit => true
  | .text => false

/-- Membership test for the revision-field group: not excluded, and the `name`
attribute contains the substring `"revision"` (popup.js lines 57-61). -/
def isRevInput (i : Input) : Bool :=
  !(excludedInput i) && strContains i.name "revision"

/-- The collection `allInputs = $('input', formEl).not(excludeFields)`
(popup.js line 57). -/
def allInputs (f : Form) : List Input :=
  f.inputs.filter (fun i => !(excludedInput i))

/-- The collection `rev`: inputs whose name contains `"revision"`
(popup.js lines 59-61). -/
def revInputs (f : Form) : List Input :=
  (allInputs f).filter (fun i => strContains i.name "revision")

/-- The collection `emptyRev`: revision fields whose value is the empty string
(popup.js lines 63-65). -/
def emptyRevInputs (f : Form) : List Input :=
  (revInputs f).filter (fun i => i.value == "")

/-- Per-element update performed by `rev.each(...)` (popup.js lines 69-75):
each revision field gets the `not-valid` class exactly when its value is empty;
all other inputs are untouched. -/
def markRevInput (i : Input) : Input :=
  if isRevInput i then { i with notValid := i.value == "" } else i

/-- Modelled from the spec: the `popups.html` Mustache template is not under
`src/`; per the spec, rendering it with `errorinput` yields a single error
banner node carrying the `error-input` marker class, so prepending it adds
exactly one to the form's `error-input` count (popup.js lines 80-82). -/
def prependErrorBanner (f : Form) : Form :=
  { f with errorBannerCount := f.errorBannerCount + 1 }

/-- Result of one run of the click-handler body: the updated form and whether
`e.preventDefault()` was called. -/
structure ClickResult where
  form : Form
  defaultPrevented : Bool
  deriving DecidableEq, Repr

/-- The body of the click handler that `validateForm` binds to the form's
`.grey-btn` control (popup.js lines 55-86): recompute the revision group and
its empty subset; if some but not all are empty, re-mark the revision fields,
hide the `.form-message`, prepend an error banner unless one is present, and
prevent the default submit; otherwise do nothing. -/
def validateClickBody (f : Form) : ClickResult :=
  let rev := revInputs f
  let emptyRev := emptyRevInputs f
  if 0 < emptyRev.length ∧ emptyRev.length < rev.length then
    let marked : Form :=
      { f with inputs := f.inputs.map markRevInput, formMessageVisible := false }
    let banned : Form :=
      if marked.errorBannerCount = 0 then prependErrorBanner marked else marked
    { form := banned, defaultPrevented := true }
  else
    { form := f, defaultPrevented := false }

/-- C1: the partial-fill condition, exactly as the source computes it
(popup.js line 67). -/
def mixedRevFill (f : Form) : Prop :=
  0 < (emptyRevInputs f).length ∧ (emptyRevInputs f).length < (revInputs f).length

instance (f : Form) : Decidable (mixedRevFill f) := by
  unfold mixedRevFill; infer_instance

/-- C1: on a click of the form's primary action control, the default submit is
prevented exactly when some but not all revision fields are empty; when all or
none are empty the handler does not prevent the submit. -/
theorem validateForm_prevents_iff_mixed (f : Form) :
    (validateClickBody f).defaultPrevented = true ↔ mixedRevFill f := by
  by_cases h : 0 < (emptyRevInputs f).length ∧ (emptyRevInputs f).length < (revInputs f).length
  · simp [validateClickBody, mixedRevFill, h]
  · simp [validateClickBody, mixedRevFill, h]

/-- Marking a revision field changes neither its kind nor its exclusion
status. -/
theorem excludedInput_mark (i : Input) :
    excludedInput (markRevInput i) = excludedInput i := by
  unfold markRevInput
  split <;> rfl

/-- Marking a revision field does not change its `name` attribute. -/
theorem markRevInput_name (i : Input) : (markRevInput i).name = i.name := by
  unfold markRevInput
  split <;> rfl

/-- Marking a revision field does not change its `value` attribute. -/
theorem markRevInput_value (i : Input) : (markRevInput i).value = i.value := by
  unfold markRevInput
  split <;> rfl

/-- Marking preserves membership in the revision-field group. -/
theorem isRevInput_mark (i : Input) :
    isRevInput (markRevInput i) = isRevInput i := by
  unfold isRevInput
  rw [excludedInput_mark, markRevInput_name]

/-- Filtering commutes with a map whose function leaves the filter predicate
invariant. -/
theorem filter_map_pred_inv (g : Input → Input) (p : Input → Bool)
    (hp : ∀ i, p (g i) = p i) (l : List Input) :
    (l.map g).filter p = (l.filter p).map g := by
  induction l with
  | nil => rfl
  | cons a l ih =>
      cases ha : p a <;>
        simp [List.filter_cons, hp a, ha, ih]

/-- The revision group of the marked form is the marked revision group of the
original form. -/
theorem revInputs_map_mark (f : Form) (msg : Bool) (cnt : Nat) :
    revInputs { inputs := f.inputs.map markRevInput,
                formMessageVisible := msg, errorBannerCount := cnt } =
      (revInputs f).map markRevInput := by
  unfold revInputs allInputs
  rw [filter_map_pred_inv markRevInput _ (fun i => by rw [excludedInput_mark]),
    filter_map_pred_inv markRevInput _ (fun i => by rw [markRevInput_name])]

/-- The empty revision group of the marked form is the marked empty revision
group of the original form. -/
theorem emptyRevInputs_map_mark (f : Form) (msg : Bool) (cnt : Nat) :
    emptyRevInputs { inputs := f.inputs.map markRevInput,
                     formMessageVisible := msg, errorBannerCount := cnt } =
      (emptyRevInputs f).map markRevInput := by
  unfold emptyRevInputs
  rw [revInputs_map_mark,
    filter_map_pred_inv markRevInput _ (fun i => by rw [markRevInput_value])]

/-- On a run taken through the error branch, the resulting inputs are the
marked inputs. -/
theorem validateClickBody_inputs_of_mixed (f : Form) (h : mixedRevFill f) :
    (validateClickBody f).form.inputs = f.inputs.map markRevInput := by
  unfold mixedRevFill at h
  simp only [validateClickBody]
  rw [if_pos h]
  split <;> rfl

/-- On a run taken through the error branch, the resulting banner count is one
when none was present and is otherwise unchanged. -/
theorem validateClickBody_banner_of_mixed (f : Form) (h : mixedRevFill f) :
    (validateClickBody f).form.errorBannerCount =
      if f.errorBannerCount = 0 then 1 else f.errorBannerCount := by
  unfold mixedRevFill at h
  simp only [validateClickBody]
  rw [if_pos h]
  split <;> simp_all [prependErrorBanner]

/-- On a run not taken through the error branch, the handler body leaves the
form entirely unchanged. -/
theorem validateClickBody_form_of_not_mixed (f : Form) (h : ¬ mixedRevFill f) :
    (validateClickBody f).form = f := by
  unfold mixedRevFill at h
  simp only [validateClickBody]
  rw [if_neg h]

/-- The error branch preserves the partial-fill condition: re-marking changes
only CSS classes, never names, values or kinds. -/
theorem mixedRevFill_validateClickBody (f : Form) (h : mixedRevFill f) :
    mixedRevFill (validateClickBody f).form := by
  have hrev : revInputs (validateClickBody f).form = (revInputs f).map markRevInput := by
    have hi := validateClickBody_inputs_of_mixed f h
    calc revInputs (validateClickBody f).form
        = revInputs { inputs := (validateClickBody f).form.inputs,
                      formMessageVisible := (validateClickBody f).form.formMessageVisible,
                      errorBannerCount := (validateClickBody f).form.errorBannerCount } := rfl
      _ = (revInputs f).map markRevInput := by rw [hi, revInputs_map_mark]
  have hemp : emptyRevInputs (validateClickBody f).form = (emptyRevInputs f).map markRevInput := by
    have hi := validateClickBody_inputs_of_mixed f h
    calc emptyRevInputs (validateClickBody f).form
        = emptyRevInputs { inputs := (validateClickBody f).form.inputs,
                           formMessageVisible := (validateClickBody f).form.formMessageVisible,
                           errorBannerCount := (validateClickBody f).form.errorBannerCount } := rfl
      _ = (emptyRevInputs f).map markRevInput := by rw [hi, emptyRevInputs_map_mark]
  unfold mixedRevFill at h ⊢
  rw [hrev, hemp, List.length_map, List.length_map]
  exact h

/-- Concrete form for C3: two revision fields, both non-empty, the first still
carrying a stale `not-valid` mark from an earlier attempt. -/
def formC3 : Form :=
  { inputs :=
      [ { kind := .text, name := "revision_cb1", value := "a", notValid := true },
        { kind := .text, name := "revision_cb2", value := "b", notValid := false } ],
    formMessageVisible := false,
    errorBannerCount := 0 }

/-- C3 counterexample: the claim that after a click every revision field
carries the `not-valid` class exactly when its value is empty and the
partial-fill condition holds is false: on a form with no current validation
error, a stale mark from a previous attempt survives the click untouched. -/
theorem validateForm_marks_claim_false :
    ¬ (∀ i ∈ (validateClickBody formC3).form.inputs,
        isRevInput i = true → (i.notValid = true ↔ (i.value = "" ∧ mixedRevFill formC3))) := by
  decide

/-- C3 amended: the marks are recomputed only on attempts where the
partial-fill condition holds — there every revision field carries `not-valid`
exactly when its value is empty; on attempts without the validation error the
handler leaves the form, stale marks included, unchanged. -/
theorem validateForm_marks_recompute (f : Form) :
    (mixedRevFill f → ∀ i ∈ (validateClickBody f).form.inputs,
        isRevInput i = true → i.notValid = (i.value == "")) ∧
    (¬ mixedRevFill f → (validateClickBody f).form = f) := by
  constructor
  · intro h i hi hrev
    rw [validateClickBody_inputs_of_mixed f h] at hi
    obtain ⟨j, hj, rfl⟩ := List.mem_map.mp hi
    rw [isRevInput_mark] at hrev
    rw [markRevInput_value]
    unfold markRevInput
    rw [if_pos hrev]
  · intro h
    exact validateClickBody_form_of_not_mixed f h

/-- C3 witness: on the concrete error-free form the click leaves the form
unchanged, by the amended theorem. -/
theorem validateForm_marks_recompute_witness :
    (validateClickBody formC3).form = formC3 :=
  (validateForm_marks_recompute formC3).2 (by decide)

/-- C6: running the validation error path twice in a row on the same form
without removing the first banner leaves exactly one error banner present: the
second run's presence test finds the banner inserted by the first. -/
theorem errorBanner_insert_idempotent (f : Form) (h : mixedRevFill f)
    (h0 : f.errorBannerCount = 0) :
    (validateClickBody (validateClickBody f).form).form.errorBannerCount = 1 := by
  have h1 : (validateClickBody f).form.errorBannerCount = 1 := by
    rw [validateClickBody_banner_of_mixed f h, if_pos h0]
  have hm1 : mixedRevFill (validateClickBody f).form :=
    mixedRevFill_validateClickBody f h
  rw [validateClickBody_banner_of_mixed _ hm1, h1]
  simp

/-- Concrete partially-filled force-build form: one revision field empty, one
filled, no banner yet. -/
def formMixed : Form :=
  { inputs :=
      [ { kind := .text, name := "revision_cb1", value := "", notValid := false },
        { kind := .text, name := "revision_cb2", value := "deadbeef", notValid := false },
        { kind := .submit, name := "submit", value := "Start build", notValid := false } ],
    formMessageVisible := true,
    errorBannerCount := 0 }

/-- C6 witness: two error-path runs on the concrete partially-filled form end
with exactly one banner. -/
theorem errorBanner_insert_idempotent_witness :
    (validateClickBody (validateClickBody formMixed).form).form.errorBannerCount = 1 :=
  errorBanner_insert_idempotent formMixed (by decide) (by decide)

/-- A force-build form container together with the number of click handlers
registered on its `.grey-btn` control. -/
structure FormWithHandlers where
  form : Form
  handlers : Nat
  deriving DecidableEq, Repr

/-- Embedding of `validateForm(formContainer)` as run at call time (popup.js
lines 52-55): it only binds one more click handler (whose body is
`validateClickBody`) on the form's `.grey-btn` control; it performs no
validation and touches no input, message or banner. -/
def validateForm (s : FormWithHandlers) : FormWithHandlers :=
  { s with handlers := s.handlers + 1 }

/-- Run the click-handler body the given number of times in sequence, as the
browser does when several identical handlers are registered. -/
def runHandlers : Nat → Form → Form
  | 0, f => f
  | n + 1, f => runHandlers n (validateClickBody f).form

/-- Dispatch one click on the `.grey-btn` control: every registered handler
body runs once, in registration order. -/
def dispatchGreyBtnClick (s : FormWithHandlers) : Form :=
  runHandlers s.handlers s.form

/-- One run of the handler body never leaves more than one banner: the error
branch inserts only into a bannerless form. -/
theorem validateClickBody_banner_le_one (f : Form) (h : f.errorBannerCount ≤ 1) :
    (validateClickBody f).form.errorBannerCount ≤ 1 := by
  by_cases hm : mixedRevFill f
  · rw [validateClickBody_banner_of_mixed f hm]
    split <;> omega
  · rw [validateClickBody_form_of_not_mixed f hm]
    exact h

/-- Any number of handler-body runs preserves the at-most-one-banner bound. -/
theorem runHandlers_banner_le_one (n : Nat) (f : Form) (h : f.errorBannerCount ≤ 1) :
    (runHandlers n f).errorBannerCount ≤ 1 := by
  induction n generalizing f with
  | zero => exact h
  | succ n ih => exact ih _ (validateClickBody_banner_le_one f h)

/-- Iterating the registration step only counts handlers, never touching the
form. -/
theorem validateForm_iterate (s : FormWithHandlers) (k : Nat) :
    validateForm^[k] s = { form := s.form, handlers := s.handlers + k } := by
  induction k with
  | zero => rfl
  | succ k ih =>
      rw [Function.iterate_succ_apply', ih]
      simp [validateForm, Nat.add_assoc]

/-- C9: `validateForm` performs no validation and no DOM mutation at call
time: `k` calls leave the form untouched and register `k` handlers, and one
subsequent click — which runs the body once per registered handler — still
leaves at most one error banner in the form. -/
theorem validateForm_registers_only (s : FormWithHandlers) (k : Nat) :
    (validateForm^[k] s).form = s.form ∧
    (validateForm^[k] s).handlers = s.handlers + k ∧
    (s.form.errorBannerCount ≤ 1 →
      (dispatchGreyBtnClick (validateForm^[k] s)).errorBannerCount ≤ 1) := by
  refine ⟨by rw [validateForm_iterate], by rw [validateForm_iterate], ?_⟩
  intro h
  rw [validateForm_iterate]
  exact runHandlers_banner_le_one _ _ h

/-- Concrete container for the C9 witness: the partially-filled form with no
handler registered yet. -/
def formMixedHandlers : FormWithHandlers :=
  { form := formMixed, handlers := 0 }

/-- C9 witness: after registering the validator three times on the concrete
form, one click leaves at most one banner. -/
theorem validateForm_registers_only_witness :
    (dispatchGreyBtnClick (validateForm^[3] formMixedHandlers)).errorBannerCount ≤ 1 :=
  (validateForm_registers_only formMixedHandlers 3).2.2 (by decide)

/-- Components of a URL as exposed by a browser anchor element: the module
parses the current page URL by assigning it to `parser.href` and reading these
fields (popup.js lines 23-26 and 103-106). For a standard http(s) URL the full
`document.URL` is the concatenation modelled by `Location.href` below. -/
structure Location where
  protocol : String
  host : String
  pathname : String
  search : String
  hash : String
  deriving DecidableEq, Repr

/-- Serialization of a location back to the full URL: scheme, `//`, host,
path, query string and fragment. -/
def Location.href (loc : Location) : String :=
  loc.protocol ++ "//" ++ loc.host ++ loc.pathname ++ loc.search ++ loc.hash

/-- The pending-jobs endpoint built by the `.popup-btn-js` click handler
(popup.js line 26): `parser.protocol + '//' + parser.host +
'/json/buildqueue?builder=' + builderName`. -/
def buildqueueUrl (loc : Location) (builderName : String) : String :=
  loc.protocol ++ "//" ++ loc.host ++ "/json/buildqueue?builder=" ++ builderName

/-- The form action computed inside `pendingJobs` (popup.js line 106):
`parser.protocol + '//' + parser.host + parser.pathname`. -/
def actionUrl (loc : Location) : String :=
  loc.protocol ++ "//" ++ loc.host ++ loc.pathname

/-- JSON values: enough structure to state what data context the module hands
to the template renderer. -/
inductive Json where
  | str : String → Json
  | arr : List Json → Json
  | obj : List (String × Json) → Json

/-- Top-level keys of a JSON object (and none for other values). -/
def Json.topKeys : Json → List String
  | .obj fields => fields.map Prod.fst
  | _ => []

/-- Nodes attached to the document body by the pending-jobs flow. `preloader`
and `rendered` are chrome from the `popups.html` template, which is not under
`src/`; all the flow observes of them is which template context they were
rendered from, which is what this type records. `elem` stands for any
pre-existing body content. -/
inductive Node where
  | preloader : Node
  | rendered : Json → Node
  | elem : Nat → Node

/-- Result of one run of a remote popup flow: the URL it requested and the
document body afterwards. -/
structure FlowResult where
  requestedUrl : String
  doc : List Node

/-- The data context the success callback passes to `Mustache.render`
(popup.js line 117): `{pendingJobs: data, actionUrl: actionUrl}`. -/
def pendingJobsCtx (data : Json) (a : String) : Json :=
  Json.obj [("pendingJobs", data), ("actionUrl", Json.str a)]

/-- Modelled from the spec, for comparison with `pendingJobsCtx`: the context
the spec describes, namely the returned JSON object itself with the computed
`actionUrl` added as one more top-level member. -/
def specMergedCtx (data : Json) (a : String) : Json :=
  match data with
  | .obj fields => Json.obj (fields ++ [("actionUrl", Json.str a)])
  | other => other

/-- Embedding of `popup.pendingJobs(url)` (popup.js lines 97-124): append the
preloader chrome to the body, issue the GET; on success (`some data`) the
callback detaches exactly the preloader node it appended and appends the
fragment rendered from `{pendingJobs: data, actionUrl}`; on failure (`none`)
no callback ever runs, since no error handler is installed. -/
def pendingJobs (url : String) (loc : Location) (doc : List Node)
    (resp : Option Json) : FlowResult :=
  match resp with
  | none => { requestedUrl := url, doc := doc ++ [Node.preloader] }
  | some data =>
      { requestedUrl := url,
        doc := doc ++ [Node.rendered (pendingJobsCtx data (actionUrl loc))] }

/-- Embedding of the `.popup-btn-js` delegate handler (popup.js lines 21-28):
build the buildqueue endpoint from the current page URL and the trigger's
`data-builderName`, then run `popup.pendingJobs` on it. -/
def pendingJobsTrigger (loc : Location) (builderName : String) (doc : List Node)
    (resp : Option Json) : FlowResult :=
  pendingJobs (buildqueueUrl loc builderName) loc doc resp

/-- C5: the computed `actionUrl` is exactly the page URL with query string and
hash stripped — the serialization of the same location with empty `search` and
`hash`. -/
theorem actionUrl_strips_query_and_hash (loc : Location) :
    actionUrl loc =
      Location.href { loc with search := "", hash := "" } := by
  simp [actionUrl, Location.href]

/-- C2: when the GET fails or never resolves, the pending-jobs flow leaves the
document as it was plus the still-attached preloader: no chrome is removed and
no popup is rendered. -/
theorem pendingJobs_failure_leaves_preloader (url : String) (loc : Location)
    (doc : List Node) :
    (pendingJobs url loc doc none).doc = doc ++ [Node.preloader] ∧
    Node.preloader ∈ (pendingJobs url loc doc none).doc := by
  refine ⟨rfl, ?_⟩
  simp [pendingJobs]

/-- C4 counterexample: on the response `{jobs: []}` the context the code hands
to the renderer nests the response under the key `pendingJobs`; it is not the
response merged with `actionUrl` that the claim describes. -/
theorem pendingJobs_context_claim_false :
    pendingJobsCtx (Json.obj [("jobs", Json.arr [])]) "http://host/builders" ≠
      specMergedCtx (Json.obj [("jobs", Json.arr [])]) "http://host/builders" := by
  intro h
  exact absurd (congrArg Json.topKeys h) (by decide)

/-- C4 amended: the endpoint equals `{scheme}//{host}/json/buildqueue?builder=b`,
and on a successful response the preloader is removed and the fragment rendered
against `{pendingJobs: D, actionUrl}` — the response nested under the key
`pendingJobs`, not merged at top level — is attached instead. -/
theorem pendingJobs_success (loc : Location) (builderName : String)
    (doc : List Node) (data : Json) :
    (pendingJobsTrigger loc builderName doc (some data)).requestedUrl =
      loc.protocol ++ "//" ++ loc.host ++ "/json/buildqueue?builder=" ++ builderName ∧
    (pendingJobsTrigger loc builderName doc (some data)).doc =
      doc ++ [Node.rendered (pendingJobsCtx data (actionUrl loc))] ∧
    (Node.preloader ∉ doc →
      Node.preloader ∉ (pendingJobsTrigger loc builderName doc (some data)).doc) := by
  refine ⟨rfl, rfl, ?_⟩
  intro h
  simp [pendingJobsTrigger, pendingJobs, h]

/-- Concrete page location for witnesses: `http://build.example:8080/builders`
with a query string and a hash. -/
def locEx : Location :=
  { protocol := "http:", host := "build.example:8080", pathname := "/builders",
    search := "?branch=trunk", hash := "#top" }

/-- C4 witness: on an empty body and response `{jobs: []}`, no preloader is
left in the successful flow's document. -/
theorem pendingJobs_success_witness :
    Node.preloader ∉ (pendingJobsTrigger locEx "b1" [] (some (Json.obj [("jobs", Json.arr [])]))).doc :=
  (pendingJobs_success locEx "b1" [] (Json.obj [("jobs", Json.arr [])])).2.2 (by simp)

/-- An inline `.more-info-box-js` info box, identified by its content. -/
structure InfoBox where
  content : String
  deriving DecidableEq, Repr

/-- Document state for the static (non-ajax) popup flow: the original info box
sitting next to the trigger, the clones attached to the body so far, and a
count of network requests issued. -/
structure StaticDoc where
  infoBox : InfoBox
  clones : List InfoBox
  networkCalls : Nat
  deriving DecidableEq, Repr

/-- Embedding of `popup.nonAjaxPopup(thisEl)` (popup.js lines 87-96): clone
the trigger's sibling info box, append the clone to the body, then center,
fade in and wire closing and re-centering on the clone only. The original box
is read, never written, and no request is issued. -/
def nonAjaxPopup (d : StaticDoc) : StaticDoc :=
  { d with clones := d.clones ++ [d.infoBox] }

/-- C7: after `N` invocations of the static popup flow, the original info box
is unchanged, exactly `N` fresh clones of it have been attached, and no
network access has happened. -/
theorem nonAjaxPopup_cloning_invariant (d : StaticDoc) (N : Nat) :
    (nonAjaxPopup^[N] d).infoBox = d.infoBox ∧
    (nonAjaxPopup^[N] d).clones = d.clones ++ List.replicate N d.infoBox ∧
    (nonAjaxPopup^[N] d).clones.length = d.clones.length + N ∧
    (nonAjaxPopup^[N] d).networkCalls = d.networkCalls := by
  induction N with
  | zero => simp
  | succ N ih =>
      obtain ⟨h1, h2, h3, h4⟩ := ih
      rw [Function.iterate_succ_apply']
      refine ⟨h1, ?_, ?_, h4⟩
      · rw [nonAjaxPopup, h2, h1, List.replicate_succ']
        simp
      · rw [nonAjaxPopup]
        simp [h3, Nat.add_assoc]

/-- Side effects a remote popup flow performs on the page, in order. -/
inductive Ev where
  | appendPreloader : Ev
  | appendFrame : String → Ev
  | getRequest : String → List (String × String) → Ev
  | removePreloader : Ev
  | insertContent : Ev
  | setFullName : Ev
  | runValidateForm : Ev
  | reveal : Ev
  | focusSubmit : Ev
  | bindResize : Ev
  | initSelectors : Ev
  | setFormAction : Ev
  | bindSubmitHide : Ev
  | bindClose : Ev
  deriving DecidableEq, Repr

/-- Event `a` happens strictly before event `b` in the trace `l`. -/
def evBefore (a b : Ev) (l : List Ev) : Prop :=
  ∃ l1 l2, l = l1 ++ l2 ∧ a ∈ l1 ∧ b ∈ l2

/-- Events of the branch-selector `done` callback (popup.js lines 141-177):
remove the preloader, build and insert the fetched form region, reveal and
focus, bind re-centering, re-run the selector enhancement, point the form's
action at the current page, bind the submit control to hide open info boxes,
and register dismissal. On a request that fails or never resolves (`none`)
the callback never runs. -/
def codebasesBranchesTail (resp : Option String) : List Ev :=
  match resp with
  | none => []
  | some _ =>
      [.removePreloader, .insertContent, .reveal, .focusSubmit, .bindResize,
       .initSelectors, .setFormAction, .bindSubmitHide, .bindClose]

/-- Embedding of `popup.codebasesBranches()` (popup.js lines 125-178): append
the preloader, append the outer frame titled "Select branches", issue the GET
to the configured path, then run the `done` callback if the request
resolves. -/
def codebasesBranches (path : String) (resp : Option String) : List Ev :=
  [.appendPreloader, .appendFrame "Select branches", .getRequest path []] ++
    codebasesBranchesTail resp

/-- Data attributes read off the trigger of the external-fragment flow
(popup.js lines 194-198). -/
structure Trigger where
  popuptitle : String
  b : String
  indexb : String
  rt_update : String
  contenttype : String
  deriving DecidableEq, Repr

/-- Query parameters of the self-fetch GET (popup.js line 208). -/
def externalContentParams (t : Trigger) : List (String × String) :=
  [("rt_update", t.rt_update), ("datab", t.b), ("dataindexb", t.indexb)]

/-- Events of the external-fragment `done` callback (popup.js lines 208-228):
remove the preloader, insert the fetched markup; when the trigger's
contenttype is `"form"`, fill the username display nodes and run
`validateForm` over the inserted fragment; then reveal, bind re-centering and
register dismissal. On a request that fails or never resolves the callback
never runs. -/
def externalContentTail (t : Trigger) (resp : Option String) : List Ev :=
  match resp with
  | none => []
  | some _ =>
      [.removePreloader, .insertContent] ++
        (if t.contenttype == "form" then [.setFullName, .runValidateForm] else []) ++
        [.reveal, .bindResize, .bindClose]

/-- Embedding of `popup.externalContentPopup(thisEl)` (popup.js lines
193-229): append the preloader, append the outer frame titled from the
trigger, issue the parameterised GET to the current page, then run the `done`
callback if the request resolves. -/
def externalContentPopup (t : Trigger) (resp : Option String) : List Ev :=
  [.appendPreloader, .appendFrame t.popuptitle,
   .getRequest "" (externalContentParams t)] ++ externalContentTail t resp

/-- C8: in the external-fragment flow, the identity fields are populated and
`validateForm` is run over the inserted fragment exactly when the request
resolves and the trigger's contenttype is `"form"`, and both happen before the
popup is revealed; for any other contenttype neither ever happens. -/
theorem externalContentPopup_form_gating (t : Trigger) (resp : Option String) :
    (Ev.setFullName ∈ externalContentPopup t resp ↔
      (resp.isSome = true ∧ t.contenttype = "form")) ∧
    (Ev.runValidateForm ∈ externalContentPopup t resp ↔
      (resp.isSome = true ∧ t.contenttype = "form")) ∧
    (∀ d : String, resp = some d → t.contenttype = "form" →
      evBefore Ev.setFullName Ev.reveal (externalContentPopup t resp) ∧
      evBefore Ev.runValidateForm Ev.reveal (externalContentPopup t resp)) := by
  cases resp with
  | none =>
      refine ⟨?_, ?_, ?_⟩
      · simp [externalContentPopup, externalContentTail]
      · simp [externalContentPopup, externalContentTail]
      · intro d hd
        exact absurd hd (by simp)
  | some d =>
      cases hb : t.contenttype == "form" with
      | true =>
          have hc : t.contenttype = "form" := by simpa using hb
          refine ⟨?_, ?_, ?_⟩
          · simp [externalContentPopup, externalContentTail, hb, hc]
          · simp [externalContentPopup, externalContentTail, hb, hc]
          · intro d' hd' hform
            constructor
            · exact ⟨[Ev.appendPreloader, Ev.appendFrame t.popuptitle,
                Ev.getRequest "" (externalContentParams t), Ev.removePreloader,
                Ev.insertContent, Ev.setFullName, Ev.runValidateForm],
                [Ev.reveal, Ev.bindResize, Ev.bindClose],
                by simp [externalContentPopup, externalContentTail, hb], by simp, by simp⟩
            · exact ⟨[Ev.appendPreloader, Ev.appendFrame t.popuptitle,
                Ev.getRequest "" (externalContentParams t), Ev.removePreloader,
                Ev.insertContent, Ev.setFullName, Ev.runValidateForm],
                [Ev.reveal, Ev.bindResize, Ev.bindClose],
                by simp [externalContentPopup, externalContentTail, hb], by simp, by simp⟩
      | false =>
          have hc : t.contenttype ≠ "form" := by simpa using hb
          refine ⟨?_, ?_, ?_⟩
          · simp [externalContentPopup, externalContentTail, hb, hc]
          · simp [externalContentPopup, externalContentTail, hb, hc]
          · intro d' hd' hform
            exact absurd hform hc

/-- Concrete external-fragment trigger carrying contenttype `"form"`. -/
def triggerEx : Trigger :=
  { popuptitle := "Custom build", b := "builder0", indexb := "0",
    rt_update := "belowHeader", contenttype := "form" }

/-- C8 witness: on the concrete form-type trigger with a resolved request, the
identity population happens before the reveal. -/
theorem externalContentPopup_form_gating_witness :
    evBefore Ev.setFullName Ev.reveal (externalContentPopup triggerEx (some "<form/>")) :=
  ((externalContentPopup_form_gating triggerEx (some "<form/>")).2.2 "<form/>" rfl rfl).1

/-- C10: in the branch-selector and external-fragment flows the outer frame is
appended before the GET is issued, so on a request that never resolves the
trace is exactly preloader, empty frame, request — both chrome nodes stay
attached, nothing is removed and the frame is never revealed. -/
theorem remoteFlows_frame_attached_before_get (path : String) (t : Trigger)
    (resp : Option String) :
    evBefore (Ev.appendFrame "Select branches") (Ev.getRequest path [])
      (codebasesBranches path resp) ∧
    evBefore (Ev.appendFrame t.popuptitle) (Ev.getRequest "" (externalContentParams t))
      (externalContentPopup t resp) ∧
    codebasesBranches path none =
      [Ev.appendPreloader, Ev.appendFrame "Select branches", Ev.getRequest path []] ∧
    externalContentPopup t none =
      [Ev.appendPreloader, Ev.appendFrame t.popuptitle,
       Ev.getRequest "" (externalContentParams t)] ∧
    Ev.removePreloader ∉ codebasesBranches path none ∧
    Ev.reveal ∉ codebasesBranches path none ∧
    Ev.removePreloader ∉ externalContentPopup t none ∧
    Ev.reveal ∉ externalContentPopup t none := by
  refine ⟨?_, ?_, rfl, rfl, ?_, ?_, ?_, ?_⟩
  · exact ⟨[Ev.appendPreloader, Ev.appendFrame "Select branches"],
      Ev.getRequest path [] :: codebasesBranchesTail resp, rfl, by simp, by simp⟩
  · exact ⟨[Ev.appendPreloader, Ev.appendFrame t.popuptitle],
      Ev.getRequest "" (externalContentParams t) :: externalContentTail t resp,
      rfl, by simp, by simp⟩
  · simp [codebasesBranches, codebasesBranchesTail]
  · simp [codebasesBranches, codebasesBranchesTail]
  · simp [externalContentPopup, externalContentTail]
  · simp [externalContentPopup, externalContentTail]
